import Mathlib

/-!
# Verification of the hop-js SDK client

A shallow embedding of the hop-js typed API client: the authentication
resolver, the per-operation capability gate, and the request shapes the
SDK methods hand to the low-level dispatcher.

Conventions of the embedding:
* A JS method that either `throw`s locally or performs one HTTP dispatch is
  a Lean function into `Except OpError Request`: `.error` means the method
  threw before any network I/O, `.ok r` means exactly the request `r` was
  dispatched.
* JS string truthiness (`!project`) is modelled by `truthy` on
  `Option String`: `none` (undefined) and `some ""` are falsy.
* Parts of the repository that live in the rest client (absent from the
  source tree: URL building, credential classification, envelope decoding)
  are modelled from the spec and marked `Modelled from the spec` in their
  doc comments.
-/

namespace HopJs

/-- The three credential kinds of the client (`client.authType` in source:
the string tags ptk, pat and bearer). -/
inductive AuthType
  | ptk
  | pat
  | bearer
deriving DecidableEq, Repr

/-- HTTP methods used by the SDK operations. -/
inductive Method
  | get
  | post
  | put
  | patch
  | delete
deriving DecidableEq, Repr

/-- Small JSON-like value universe: enough to represent the bodies the
projects SDK builds and the envelope fields the server returns. -/
inductive Val
  | vstr : String → Val
  | vnum : Int → Val
  | vlist : List String → Val
deriving DecidableEq, Repr

/-- A request body: absent, a JSON object literal (fields may be
`undefined`, which JSON serialization drops), or an opaque raw text body. -/
inductive Body
  | empty
  | json : List (String × Option Val) → Body
  | text : String → Body
deriving DecidableEq, Repr

/-- Local errors an SDK call can raise before or during dispatch. -/
inductive OpError
  | authRequirement : String → OpError
  | invalidCredential : OpError
  | missingParam : String → OpError
  | decodeError : OpError
deriving DecidableEq, Repr

/-- A dispatched request as the SDK methods hand it to the low-level
client: method, path template string, body, and the parameter mapping
(path and query parameters mixed, exactly as at the call sites). -/
structure Request where
  method : Method
  path : String
  body : Body
  params : List (String × Option String)
deriving DecidableEq, Repr

/-- JS truthiness of an optional string parameter: `undefined` and the
empty string are falsy. -/
def truthy : Option String → Bool
  | none => false
  | some s => !s.isEmpty

/-! ## Registry SDK (registry.images) -/

/-- Embeds `registry.images.getAll`: guard `!project && authType !== 'ptk'`,
then `client.get('/v1/registry/images', {project})`. -/
def registryImagesGetAll (auth : AuthType) (project : Option String) :
    Except OpError Request :=
  if !truthy project && auth != AuthType.ptk then
    .error (.authRequirement "Project is required when using a PAT or bearer")
  else
    .ok ⟨.get, "/v1/registry/images", .empty, [("project", project)]⟩

/-- Embeds `registry.images.getManifest`. -/
def registryImagesGetManifest (auth : AuthType) (image : String)
    (project : Option String) : Except OpError Request :=
  if !truthy project && auth != AuthType.ptk then
    .error (.authRequirement "Project is required when using a PAT or bearer")
  else
    .ok ⟨.get, "/v1/registry/images/:image/manifests", .empty,
      [("image", some image), ("project", project)]⟩

/-- Embeds `registry.images.delete`. -/
def registryImagesDelete (auth : AuthType) (image : String)
    (project : Option String) : Except OpError Request :=
  if !truthy project && auth != AuthType.ptk then
    .error (.authRequirement "Project is required when using a PAT or bearer")
  else
    .ok ⟨.delete, "/v1/registry/images/:image", .empty,
      [("image", some image), ("project", project)]⟩

/-! ## Projects SDK: tokens -/

/-- Embeds `projects.tokens.delete`: guard, then a ternary selects the
`:project_id` template or the `@this` template. -/
def tokensDelete (auth : AuthType) (projectTokenId : String)
    (project : Option String) : Except OpError Request :=
  if auth != AuthType.ptk && !truthy project then
    .error (.authRequirement
      "Project ID is required for bearer or PAT authentication to delete a project token")
  else if truthy project then
    .ok ⟨.delete, "/v1/projects/:project_id/tokens/:project_token_id", .empty,
      [("project_id", project), ("project_token_id", some projectTokenId)]⟩
  else
    .ok ⟨.delete, "/v1/projects/@this/tokens/:project_token_id", .empty,
      [("project_token_id", some projectTokenId)]⟩

/-- Embeds `projects.tokens.get`. -/
def tokensGet (auth : AuthType) (projectId : Option String) :
    Except OpError Request :=
  if auth != AuthType.ptk && !truthy projectId then
    .error (.authRequirement
      "Project ID is required for bearer or PAT authentication")
  else if !truthy projectId then
    .ok ⟨.get, "/v1/projects/@this/tokens", .empty, []⟩
  else
    .ok ⟨.get, "/v1/projects/:project_id/tokens", .empty,
      [("project_id", projectId)]⟩

/-- Embeds `projects.tokens.create`. -/
def tokensCreate (auth : AuthType) (flags : Int) (projectId : Option String) :
    Except OpError Request :=
  if !truthy projectId && auth != AuthType.ptk then
    .error (.authRequirement
      "Project ID is required for bearer or PAT authentication to create a project token")
  else if !truthy projectId then
    .ok ⟨.post, "/v1/projects/@this/tokens",
      .json [("flags", some (.vnum flags))], []⟩
  else
    .ok ⟨.post, "/v1/projects/:project_id/tokens",
      .json [("flags", some (.vnum flags))], [("project_id", projectId)]⟩

/-! ## Projects SDK: webhooks -/

/-- Embeds `projects.webhooks.get` (the source reuses the
"fetch all project members" error message here). -/
def webhooksGet (auth : AuthType) (projectId : Option String) :
    Except OpError Request :=
  if auth != AuthType.ptk && !truthy projectId then
    .error (.authRequirement
      "Project ID is required for bearer or PAT authentication to fetch all project members")
  else if truthy projectId then
    .ok ⟨.get, "/v1/projects/:project_id/webhooks", .empty,
      [("project_id", projectId)]⟩
  else
    .ok ⟨.get, "/v1/projects/@this/webhooks", .empty, []⟩

/-- Embeds `projects.webhooks.create`. -/
def webhooksCreate (auth : AuthType) (webhookUrl : String)
    (events : List String) (projectId : Option String) :
    Except OpError Request :=
  if auth != AuthType.ptk && !truthy projectId then
    .error (.authRequirement
      "Project ID is required for bearer or PAT authentication to create a webhook")
  else if truthy projectId then
    .ok ⟨.post, "/v1/projects/:project_id/webhooks",
      .json [("webhook_url", some (.vstr webhookUrl)),
             ("events", some (.vlist events))],
      [("project_id", projectId)]⟩
  else
    .ok ⟨.post, "/v1/projects/@this/webhooks",
      .json [("webhook_url", some (.vstr webhookUrl)),
             ("events", some (.vlist events))],
      []⟩

/-- Embeds `projects.webhooks.edit` (both body fields may be undefined). -/
def webhooksEdit (auth : AuthType) (webhookId : String)
    (webhookUrl : Option String) (events : Option (List String))
    (projectId : Option String) : Except OpError Request :=
  if auth != AuthType.ptk && !truthy projectId then
    .error (.authRequirement
      "Project ID is required for bearer or PAT authentication to edit a webhook")
  else if truthy projectId then
    .ok ⟨.patch, "/v1/projects/:project_id/webhooks/:webhook_id",
      .json [("webhook_url", webhookUrl.map .vstr),
             ("events", events.map .vlist)],
      [("project_id", projectId), ("webhook_id", some webhookId)]⟩
  else
    .ok ⟨.patch, "/v1/projects/@this/webhooks/:webhook_id",
      .json [("webhook_url", webhookUrl.map .vstr),
             ("events", events.map .vlist)],
      [("webhook_id", some webhookId)]⟩

/-- Embeds `projects.webhooks.delete`. -/
def webhooksDelete (auth : AuthType) (webhookId : String)
    (projectId : Option String) : Except OpError Request :=
  if auth != AuthType.ptk && !truthy projectId then
    .error (.authRequirement
      "Project ID is required for bearer or PAT authentication to delete a webhook")
  else if truthy projectId then
    .ok ⟨.delete, "/v1/projects/:project_id/webhooks/:webhook_id", .empty,
      [("project_id", projectId), ("webhook_id", some webhookId)]⟩
  else
    .ok ⟨.delete, "/v1/projects/@this/webhooks/:webhook_id", .empty,
      [("webhook_id", some webhookId)]⟩

/-- Embeds `projects.webhooks.regenerateSecret` (a POST with no body). -/
def webhooksRegenerateSecret (auth : AuthType) (webhookId : String)
    (projectId : Option String) : Except OpError Request :=
  if auth != AuthType.ptk && !truthy projectId then
    .error (.authRequirement
      "Project ID is required for bearer or PAT authentication to regenerate a webhook secret")
  else if truthy projectId then
    .ok ⟨.post, "/v1/projects/:project_id/webhooks/:webhook_id/regenerate",
      .empty,
      [("project_id", projectId), ("webhook_id", some webhookId)]⟩
  else
    .ok ⟨.post, "/v1/projects/@this/webhooks/:webhook_id/regenerate", .empty,
      [("webhook_id", some webhookId)]⟩

/-! ## Projects SDK: members and secrets -/

/-- Embeds `projects.getAllMembers`. -/
def getAllMembers (auth : AuthType) (projectId : Option String) :
    Except OpError Request :=
  if auth != AuthType.ptk && !truthy projectId then
    .error (.authRequirement
      "Project ID is required for bearer or PAT authentication to fetch all project members")
  else if truthy projectId then
    .ok ⟨.get, "/v1/projects/:project_id/members", .empty,
      [("project_id", projectId)]⟩
  else
    .ok ⟨.get, "/v1/projects/@this/members", .empty, []⟩

/-- Embeds `projects.getCurrentMember`: forbidden outright for project
tokens, before the (mandatory) project id is ever looked at. -/
def getCurrentMember (auth : AuthType) (projectId : String) :
    Except OpError Request :=
  if auth == AuthType.ptk then
    .error (.authRequirement
      "You cannot resolve a member from a project token! You must use a bearer or pat token")
  else
    .ok ⟨.get, "/v1/projects/:project_id/members/@me", .empty,
      [("project_id", some projectId)]⟩

/-- Embeds `projects.secrets.getAll`. -/
def secretsGetAll (auth : AuthType) (projectId : Option String) :
    Except OpError Request :=
  if auth != AuthType.ptk && !truthy projectId then
    .error (.authRequirement
      "Project ID is required for bearer or PAT authentication to fetch all secrets")
  else if !truthy projectId then
    .ok ⟨.get, "/v1/projects/@this/secrets", .empty, []⟩
  else
    .ok ⟨.get, "/v1/projects/:project_id/secrets", .empty,
      [("project_id", projectId)]⟩

/-- Embeds `projects.secrets.delete`. -/
def secretsDelete (auth : AuthType) (id : String)
    (projectId : Option String) : Except OpError Request :=
  if auth != AuthType.ptk && !truthy projectId then
    .error (.authRequirement
      "Project ID is required for bearer or PAT authentication to delete a secret")
  else if !truthy projectId then
    .ok ⟨.delete, "/v1/projects/@this/secrets/:secret_id", .empty,
      [("secret_id", some id)]⟩
  else
    .ok ⟨.delete, "/v1/projects/:project_id/secrets/:secret_id", .empty,
      [("secret_id", some id), ("project_id", projectId)]⟩

/-! ## URL building (rest client, modelled from the spec) -/

/-- Splits a character list on `/` (an executable rendering of
`String.splitOn "/"` that the kernel can evaluate). -/
def splitSlash : List Char → List (List Char)
  | [] => [[]]
  | c :: cs =>
    if c = '/' then [] :: splitSlash cs
    else
      match splitSlash cs with
      | [] => [[c]]
      | w :: ws => (c :: w) :: ws

/-- Path-segment list of a template string, split on `/`. -/
def splitPath (template : String) : List String :=
  (splitSlash template.data).map String.mk

/-- A segment of the form `:name` is a placeholder. -/
def isPlaceholder (seg : String) : Bool :=
  match seg.data with
  | ':' :: _ => true
  | _ => false

/-- The parameter name of a placeholder segment (the segment minus its
leading colon). -/
def placeholderName (seg : String) : String :=
  match seg.data with
  | ':' :: rest => String.mk rest
  | _ => seg

/-- Modelled from the spec: placeholder resolution inside the rest
client's URL builder (`client.url`, absent from the source tree). Each
`:name` segment is replaced by the value `params` supplies for `name`; a
missing or undefined value fails fast before any network I/O. -/
def resolveSegments (params : List (String × Option String)) :
    List String → Except OpError (List String)
  | [] => .ok []
  | seg :: rest =>
    if isPlaceholder seg then
      match params.lookup (placeholderName seg) with
      | some (some v) =>
        match resolveSegments params rest with
        | .ok segs => .ok (v :: segs)
        | .error e => .error e
      | _ => .error (.missingParam (placeholderName seg))
    else
      match resolveSegments params rest with
      | .ok segs => .ok (seg :: segs)
      | .error e => .error e

/-- The placeholder names occurring in a path template. -/
def pathParamNames (template : String) : List String :=
  (splitPath template).filterMap fun seg =>
    if isPlaceholder seg then some (placeholderName seg) else none

/-- A resolved URL: its path segments in order, and its query-string
pairs. -/
structure Url where
  segments : List String
  query : List (String × String)
deriving DecidableEq, Repr

/-- Modelled from the spec: the non-path entries of the parameter mapping
become query parameters, and keys whose value is undefined are omitted
entirely. -/
def queryOf (template : String) (params : List (String × Option String)) :
    List (String × String) :=
  params.filterMap fun kv =>
    if (pathParamNames template).contains kv.1 then none
    else kv.2.map fun v => (kv.1, v)

/-- Modelled from the spec: the rest client's URL builder (`client.url`,
absent from the source tree): resolve each placeholder against the
parameter mapping, keep the remaining defined entries as query
parameters. -/
def buildUrl (template : String) (params : List (String × Option String)) :
    Except OpError Url :=
  match resolveSegments params (splitPath template) with
  | .error e => .error e
  | .ok segs => .ok ⟨segs, queryOf template params⟩

/-- A request built directly against a resolved URL (the one SDK method
that bypasses the JSON helpers: `secrets.create`). -/
structure RawRequest where
  url : Url
  contentType : String
  body : Body
  method : Method
deriving DecidableEq, Repr

/-- Embeds `projects.secrets.create`: after the gate, the URL is built
from the fixed `@this` template with the name and project in the
parameter mapping, and a raw `PUT` request is issued with the literal
secret value as a `text/plain` body. -/
def secretsCreate (auth : AuthType) (name value : String)
    (projectId : Option String) : Except OpError RawRequest :=
  if auth != AuthType.ptk && !truthy projectId then
    .error (.authRequirement
      "Project ID is required for bearer or PAT authentication to create a secret")
  else
    match buildUrl "/v1/projects/@this/secrets/:name"
        [("name", some name), ("project", projectId)] with
    | .error e => .error e
    | .ok url => .ok ⟨url, "text/plain", .text value, .put⟩

/-! ## Response envelope decoding (rest client, modelled from the spec) -/

/-- Modelled from the spec: the dispatcher parses the JSON envelope and
returns it typed to the endpoint's declared response shape; a response
missing the expected field is a decode failure, never a silently coerced
value (the rest client itself is absent from the source tree). -/
def decodeField (field : String) (envelope : List (String × Val)) :
    Except OpError Val :=
  match envelope.lookup field with
  | some v => .ok v
  | none => .error .decodeError

/-- `registry.images.getAll` run against a server envelope: gate, then
dispatch, then destructure the `images` field. -/
def registryImagesGetAllRun (auth : AuthType) (project : Option String)
    (envelope : List (String × Val)) : Except OpError Val :=
  match registryImagesGetAll auth project with
  | .error e => .error e
  | .ok _ => decodeField "images" envelope

/-- `projects.tokens.get` run against a server envelope: destructures the
`project_tokens` field. -/
def tokensGetRun (auth : AuthType) (projectId : Option String)
    (envelope : List (String × Val)) : Except OpError Val :=
  match tokensGet auth projectId with
  | .error e => .error e
  | .ok _ => decodeField "project_tokens" envelope

/-- `projects.getCurrentMember` run against a server envelope:
destructures the `project_member` field. -/
def getCurrentMemberRun (auth : AuthType) (projectId : String)
    (envelope : List (String × Val)) : Except OpError Val :=
  match getCurrentMember auth projectId with
  | .error e => .error e
  | .ok _ => decodeField "project_member" envelope

/-! ## Client construction (Hop constructor and credential classification) -/

/-- Default base URL constant of the client. -/
def DEFAULT_BASE_URL : String := "https://api.hop.io"

/-- Whether `pat` is a leading run of `s` (an executable rendering of
`String.startsWith` that the kernel can evaluate). -/
def hasLead : List Char → List Char → Bool
  | [], _ => true
  | _ :: _, [] => false
  | p :: ps, c :: cs => p == c && hasLead ps cs

/-- Modelled from the spec: the Authentication Resolver of the rest client
(absent from the source tree). A fixed leading pattern identifies each
credential kind; an empty or unrecognized string fails with
`InvalidCredential`. -/
def classify (secret : String) : Except OpError AuthType :=
  if hasLead "ptk_".data secret.data then .ok .ptk
  else if hasLead "bearer_".data secret.data then .ok .bearer
  else if hasLead "pat_".data secret.data then .ok .pat
  else .error .invalidCredential

/-- The argument accepted by the `Hop` constructor: either a bare
credential string with an optional base URL, or an options object whose
`authentication` and `baseUrl` fields may each be absent. -/
inductive HopArg
  | secret : String → Option String → HopArg
  | options : Option String → Option String → HopArg
deriving DecidableEq, Repr

/-- The credential string carried by a constructor argument, if any. -/
def credentialOf : HopArg → Option String
  | .secret s _ => some s
  | .options a _ => a

/-- A constructed client: resolved credential kind, the credential
itself, and the base URL. -/
structure Client where
  authType : AuthType
  token : String
  baseUrl : String
deriving DecidableEq, Repr

/-- The error message thrown by the `Hop` constructor when the
authentication argument is missing or falsy. -/
def missingAuthMsg : String :=
  "Missing authentication token to new Hop() - please provide a valid Project Token, User Bearer or Personal Access Token"

/-- Embeds the `Hop` constructor: a falsy credential (absent option field,
or empty string, both overloads) throws immediately; otherwise the rest
client classifies the credential, rejecting unrecognized forms. -/
def mkHop : HopArg → Except OpError Client
  | .secret s baseUrl =>
    if s.isEmpty then .error (.authRequirement missingAuthMsg)
    else
      match classify s with
      | .ok k => .ok ⟨k, s, baseUrl.getD DEFAULT_BASE_URL⟩
      | .error e => .error e
  | .options auth baseUrl =>
    match auth with
    | none => .error (.authRequirement missingAuthMsg)
    | some s =>
      if s.isEmpty then .error (.authRequirement missingAuthMsg)
      else
        match classify s with
        | .ok k => .ok ⟨k, s, baseUrl.getD DEFAULT_BASE_URL⟩
        | .error e => .error e

/-! ## Typed channels helper -/

/-- The channel operations of the underlying channels SDK that the typed
helper can invoke. -/
inductive ChannelCall
  | publishMessage : String → String → Val → ChannelCall
  | setState : String → Val → ChannelCall
  | patchState : String → Val → ChannelCall
  | deleteChannel : String → ChannelCall
  | subscribeTokens : String → List String → ChannelCall
deriving DecidableEq, Repr

/-- A zod schema as the typed-channels helper uses it: `parse` is
`schema.parseAsync`, `parsePartial` is `schema.partial().parseAsync`. -/
structure Schema where
  parse : Val → Except String Val
  parsePartial : Val → Except String Val

/-- Embeds `publish` of the typed-channels helper: with a per-event schema
present, validate then publish the parsed payload; otherwise publish the
payload as-is. -/
def tcPublish (schemas : Option (String → Option Schema))
    (channel event : String) (data : Val) : Except String ChannelCall :=
  match schemas with
  | some lookupSchema =>
    match lookupSchema event with
    | some schema =>
      match schema.parse data with
      | .ok parsed => .ok (.publishMessage channel event parsed)
      | .error e => .error e
    | none => .ok (.publishMessage channel event data)
  | none => .ok (.publishMessage channel event data)

/-- Embeds `setState` of the typed-channels helper. -/
def tcSetState (schema : Option Schema) (channel : String) (state : Val) :
    Except String ChannelCall :=
  match schema with
  | some s =>
    match s.parse state with
    | .ok parsed => .ok (.setState channel parsed)
    | .error e => .error e
  | none => .ok (.setState channel state)

/-- Embeds `patchState` of the typed-channels helper. With a schema
present the source validates with `schema.partial()` and then invokes
`hop.channels.setState`; with no schema it invokes
`hop.channels.patchState`. -/
def tcPatchState (schema : Option Schema) (channel : String) (state : Val) :
    Except String ChannelCall :=
  match schema with
  | some s =>
    match s.parsePartial state with
    | .ok parsed => .ok (.setState channel parsed)
    | .error e => .error e
  | none => .ok (.patchState channel state)

/-- The identity schema: accepts any payload unchanged (e.g.
`z.object` of no constrained fields in passthrough mode). -/
def idSchema : Schema :=
  ⟨fun v => .ok v, fun v => .ok v⟩

/-! ## The projects SDK object -/

/-- The `tokens` capability of the projects SDK. -/
structure TokensSDK where
  delete : String → Option String → Except OpError Request
  get : Option String → Except OpError Request
  create : Int → Option String → Except OpError Request

/-- The `webhooks` capability of the projects SDK. -/
structure WebhooksSDK where
  get : Option String → Except OpError Request
  create : String → List String → Option String → Except OpError Request
  edit : String → Option String → Option (List String) → Option String →
    Except OpError Request
  delete : String → Option String → Except OpError Request
  regenerateSecret : String → Option String → Except OpError Request

/-- The `secrets` capability of the projects SDK. -/
structure SecretsSDK where
  getAll : Option String → Except OpError Request
  create : String → String → Option String → Except OpError RawRequest
  delete : String → Option String → Except OpError Request

/-- The record returned by the projects SDK factory: note the deprecated
`projectTokens` field and the `tokens` field are assigned from the same
local `tokens` object, exactly as in the source. -/
structure ProjectsSDK where
  getAllMembers : Option String → Except OpError Request
  getCurrentMember : String → Except OpError Request
  projectTokens : TokensSDK
  tokens : TokensSDK
  webhooks : WebhooksSDK
  secrets : SecretsSDK

/-- Embeds the `projects` SDK factory applied to a client with the given
credential kind. -/
def projectsSDK (auth : AuthType) : ProjectsSDK :=
  let tokens : TokensSDK :=
    ⟨tokensDelete auth, tokensGet auth, tokensCreate auth⟩
  { getAllMembers := getAllMembers auth
    getCurrentMember := getCurrentMember auth
    projectTokens := tokens
    tokens := tokens
    webhooks := ⟨webhooksGet auth, webhooksCreate auth, webhooksEdit auth,
      webhooksDelete auth, webhooksRegenerateSecret auth⟩
    secrets := ⟨secretsGetAll auth, secretsCreate auth, secretsDelete auth⟩ }

/-! ## Claim theorems -/

/-- C1: for every project-scoped SDK operation (registry images
getAll/getManifest/delete, project tokens get/create/delete, webhooks,
members, secrets), if the client's credential kind is not `project_token`
and no project id is supplied, the call fails with a local
`authRequirement` error — and, `.error` being the no-dispatch outcome of
the embedding, no HTTP request is dispatched. -/
theorem gate_requires_project_id_without_ptk (auth : AuthType)
    (h : auth ≠ AuthType.ptk) :
    (∃ m, registryImagesGetAll auth none = .error (.authRequirement m)) ∧
    (∀ image, ∃ m, registryImagesGetManifest auth image none =
      .error (.authRequirement m)) ∧
    (∀ image, ∃ m, registryImagesDelete auth image none =
      .error (.authRequirement m)) ∧
    (∀ ptkid, ∃ m, tokensDelete auth ptkid none =
      .error (.authRequirement m)) ∧
    (∃ m, tokensGet auth none = .error (.authRequirement m)) ∧
    (∀ flags, ∃ m, tokensCreate auth flags none =
      .error (.authRequirement m)) ∧
    (∃ m, webhooksGet auth none = .error (.authRequirement m)) ∧
    (∀ u es, ∃ m, webhooksCreate auth u es none =
      .error (.authRequirement m)) ∧
    (∀ wid u es, ∃ m, webhooksEdit auth wid u es none =
      .error (.authRequirement m)) ∧
    (∀ wid, ∃ m, webhooksDelete auth wid none =
      .error (.authRequirement m)) ∧
    (∀ wid, ∃ m, webhooksRegenerateSecret auth wid none =
      .error (.authRequirement m)) ∧
    (∃ m, getAllMembers auth none = .error (.authRequirement m)) ∧
    (∃ m, secretsGetAll auth none = .error (.authRequirement m)) ∧
    (∀ n v, ∃ m, secretsCreate auth n v none =
      .error (.authRequirement m)) ∧
    (∀ sid, ∃ m, secretsDelete auth sid none =
      .error (.authRequirement m)) := by
  cases auth with
  | ptk => exact absurd rfl h
  | pat =>
    exact ⟨⟨_, rfl⟩, fun _ => ⟨_, rfl⟩, fun _ => ⟨_, rfl⟩, fun _ => ⟨_, rfl⟩,
      ⟨_, rfl⟩, fun _ => ⟨_, rfl⟩, ⟨_, rfl⟩, fun _ _ => ⟨_, rfl⟩,
      fun _ _ _ => ⟨_, rfl⟩, fun _ => ⟨_, rfl⟩, fun _ => ⟨_, rfl⟩, ⟨_, rfl⟩,
      ⟨_, rfl⟩, fun _ _ => ⟨_, rfl⟩, fun _ => ⟨_, rfl⟩⟩
  | bearer =>
    exact ⟨⟨_, rfl⟩, fun _ => ⟨_, rfl⟩, fun _ => ⟨_, rfl⟩, fun _ => ⟨_, rfl⟩,
      ⟨_, rfl⟩, fun _ => ⟨_, rfl⟩, ⟨_, rfl⟩, fun _ _ => ⟨_, rfl⟩,
      fun _ _ _ => ⟨_, rfl⟩, fun _ => ⟨_, rfl⟩, fun _ => ⟨_, rfl⟩, ⟨_, rfl⟩,
      ⟨_, rfl⟩, fun _ _ => ⟨_, rfl⟩, fun _ => ⟨_, rfl⟩⟩

/-- C1 witness: a personal-access-token client calling `tokens.get` with
no project id fails locally. -/
theorem gate_requires_project_id_without_ptk_witness :
    AuthType.pat ≠ AuthType.ptk ∧
    (∃ m, tokensGet AuthType.pat none = .error (.authRequirement m)) :=
  ⟨by decide,
    (gate_requires_project_id_without_ptk AuthType.pat (by decide)).2.2.2.2.1⟩

/-- C2: `getCurrentMember` fails unconditionally, with a local error and
hence before any dispatch, whenever the credential kind is
`project_token`, whatever project id is supplied. -/
theorem getCurrentMember_forbidden_for_ptk (projectId : String) :
    getCurrentMember AuthType.ptk projectId =
      .error (.authRequirement
        "You cannot resolve a member from a project token! You must use a bearer or pat token") :=
  rfl

/-- C8: the deprecated `projectTokens` field and the `tokens` field of
the projects SDK are the very same capability: the fields are equal, and
each operation behaves identically through either name on every input and
every client credential kind. -/
theorem projectTokens_alias_of_tokens (auth : AuthType) :
    (projectsSDK auth).projectTokens = (projectsSDK auth).tokens ∧
    (∀ ptkid project, (projectsSDK auth).projectTokens.delete ptkid project =
      (projectsSDK auth).tokens.delete ptkid project) ∧
    (∀ projectId, (projectsSDK auth).projectTokens.get projectId =
      (projectsSDK auth).tokens.get projectId) ∧
    (∀ flags projectId,
      (projectsSDK auth).projectTokens.create flags projectId =
        (projectsSDK auth).tokens.create flags projectId) :=
  ⟨rfl, fun _ _ => rfl, fun _ => rfl, fun _ _ => rfl⟩

/-- C4 counterexample: under a `project_token` credential with no project
id, `registry.images.getAll` passes the gate and dispatches — but its
path contains no `@this` segment (nor any `:project_id` placeholder), so
the claim that every such dispatch uses the `@this` template is false. -/
theorem registry_getAll_dispatch_has_no_this_segment :
    registryImagesGetAll AuthType.ptk none =
      .ok ⟨.get, "/v1/registry/images", .empty, [("project", none)]⟩ ∧
    (splitPath "/v1/registry/images").contains "@this" = false ∧
    pathParamNames "/v1/registry/images" = [] :=
  ⟨rfl, by decide, by decide⟩

/-- C4 amended: under a `project_token` credential, every project-scoped
operation invoked without an explicit project id passes the gate and
dispatches its request; the projects-SDK operations (tokens, webhooks,
members, secrets) use the `@this` path template in place of a
`:project_id` segment, while the registry image operations keep their
fixed paths and carry the project only as an (absent) query-side
parameter. -/
theorem ptk_omitted_project_id_dispatches :
    (∀ ptkid, tokensDelete AuthType.ptk ptkid none =
      .ok ⟨.delete, "/v1/projects/@this/tokens/:project_token_id", .empty,
        [("project_token_id", some ptkid)]⟩) ∧
    tokensGet AuthType.ptk none =
      .ok ⟨.get, "/v1/projects/@this/tokens", .empty, []⟩ ∧
    (∀ flags, tokensCreate AuthType.ptk flags none =
      .ok ⟨.post, "/v1/projects/@this/tokens",
        .json [("flags", some (.vnum flags))], []⟩) ∧
    webhooksGet AuthType.ptk none =
      .ok ⟨.get, "/v1/projects/@this/webhooks", .empty, []⟩ ∧
    (∀ u es, webhooksCreate AuthType.ptk u es none =
      .ok ⟨.post, "/v1/projects/@this/webhooks",
        .json [("webhook_url", some (.vstr u)), ("events", some (.vlist es))],
        []⟩) ∧
    (∀ wid u es, webhooksEdit AuthType.ptk wid u es none =
      .ok ⟨.patch, "/v1/projects/@this/webhooks/:webhook_id",
        .json [("webhook_url", u.map Val.vstr), ("events", es.map Val.vlist)],
        [("webhook_id", some wid)]⟩) ∧
    (∀ wid, webhooksDelete AuthType.ptk wid none =
      .ok ⟨.delete, "/v1/projects/@this/webhooks/:webhook_id", .empty,
        [("webhook_id", some wid)]⟩) ∧
    (∀ wid, webhooksRegenerateSecret AuthType.ptk wid none =
      .ok ⟨.post, "/v1/projects/@this/webhooks/:webhook_id/regenerate",
        .empty, [("webhook_id", some wid)]⟩) ∧
    getAllMembers AuthType.ptk none =
      .ok ⟨.get, "/v1/projects/@this/members", .empty, []⟩ ∧
    secretsGetAll AuthType.ptk none =
      .ok ⟨.get, "/v1/projects/@this/secrets", .empty, []⟩ ∧
    (∀ sid, secretsDelete AuthType.ptk sid none =
      .ok ⟨.delete, "/v1/projects/@this/secrets/:secret_id", .empty,
        [("secret_id", some sid)]⟩) ∧
    (∀ n v, secretsCreate AuthType.ptk n v none =
      .ok ⟨⟨["", "v1", "projects", "@this", "secrets", n], []⟩,
        "text/plain", .text v, .put⟩) ∧
    registryImagesGetAll AuthType.ptk none =
      .ok ⟨.get, "/v1/registry/images", .empty, [("project", none)]⟩ ∧
    (∀ image, registryImagesGetManifest AuthType.ptk image none =
      .ok ⟨.get, "/v1/registry/images/:image/manifests", .empty,
        [("image", some image), ("project", none)]⟩) ∧
    (∀ image, registryImagesDelete AuthType.ptk image none =
      .ok ⟨.delete, "/v1/registry/images/:image", .empty,
        [("image", some image), ("project", none)]⟩) :=
  ⟨fun _ => rfl, rfl, fun _ => rfl, rfl, fun _ _ => rfl, fun _ _ _ => rfl,
    fun _ => rfl, fun _ => rfl, rfl, rfl, fun _ => rfl, fun _ _ => rfl, rfl,
    fun _ => rfl, fun _ => rfl⟩

/-- C3: every secret-creation call that passes the capability gate (a
`project_token` client, or an explicit project id) issues a `PUT` request
whose body is the raw, unencoded secret value with content type
`text/plain` — a `Body.text` payload, never a `Body.json` encoding. -/
theorem secretsCreate_sends_raw_text_body (auth : AuthType)
    (name value : String) (projectId : Option String)
    (h : auth = AuthType.ptk ∨ truthy projectId = true) :
    ∃ r, secretsCreate auth name value projectId = .ok r ∧
      r.method = .put ∧ r.contentType = "text/plain" ∧
      r.body = .text value := by
  have hg : (auth != AuthType.ptk && !truthy projectId) = false := by
    rcases h with h | h
    · subst h; rfl
    · simp [h]
  simp only [secretsCreate, hg, Bool.false_eq_true, if_false]
  exact ⟨_, rfl, rfl, rfl, rfl⟩

/-- C3 witness: a concrete secret creation under a project token. -/
theorem secretsCreate_sends_raw_text_body_witness :
    (AuthType.ptk = AuthType.ptk ∨ truthy none = true) ∧
    ∃ r, secretsCreate AuthType.ptk "DB_URL" "postgres://u:p@h/db" none =
      .ok r ∧ r.method = .put ∧ r.contentType = "text/plain" ∧
      r.body = .text "postgres://u:p@h/db" :=
  ⟨Or.inl rfl,
    secretsCreate_sends_raw_text_body AuthType.ptk "DB_URL"
      "postgres://u:p@h/db" none (Or.inl rfl)⟩

/-- C10: every gated `secrets.create` call, including those supplying an
explicit project id, builds its URL from the fixed
`/v1/projects/@this/secrets/:name` template: only the secret name is
substituted into the path, and the supplied project id appears only under
the `project` key of the query, never as a path segment. -/
theorem secretsCreate_url_fixed_this_template (auth : AuthType)
    (name value : String) (projectId : Option String)
    (h : auth = AuthType.ptk ∨ truthy projectId = true) :
    ∃ r, secretsCreate auth name value projectId = .ok r ∧
      r.url.segments = ["", "v1", "projects", "@this", "secrets", name] ∧
      r.url.query = (match projectId with
        | some p => [("project", p)]
        | none => []) := by
  rcases h with h | h
  · subst h
    cases projectId with
    | none => exact ⟨_, rfl, rfl, rfl⟩
    | some p => exact ⟨_, rfl, rfl, rfl⟩
  · cases projectId with
    | none => simp [truthy] at h
    | some p =>
      have hg : (auth != AuthType.ptk && !truthy (some p)) = false := by
        simp [h]
      simp only [secretsCreate, hg, Bool.false_eq_true, if_false]
      exact ⟨_, rfl, rfl, rfl⟩

/-- C10 witness: a bearer client with an explicit project id still gets
the `@this` path, with the project as a query parameter. -/
theorem secretsCreate_url_fixed_this_template_witness :
    (AuthType.bearer = AuthType.ptk ∨ truthy (some "project_abc") = true) ∧
    ∃ r, secretsCreate AuthType.bearer "KEY" "val" (some "project_abc") =
      .ok r ∧
      r.url.segments = ["", "v1", "projects", "@this", "secrets", "KEY"] ∧
      r.url.query = [("project", "project_abc")] :=
  ⟨Or.inr rfl,
    secretsCreate_url_fixed_this_template AuthType.bearer "KEY" "val"
      (some "project_abc") (Or.inr rfl)⟩

/-- C6 (divergence witness): in the typed-channels helper, `patchState`
with a validation schema present invokes the `setState` channel
operation, while with no schema it invokes `patchState` — so the presence
of a validator changes which underlying operation is called, contradicting
the validate-then-send-same-operation design (and the method's own name). -/
theorem patchState_with_schema_calls_setState :
    tcPatchState (some idSchema) "room" (Val.vstr "st") =
      .ok (ChannelCall.setState "room" (Val.vstr "st")) ∧
    tcPatchState none "room" (Val.vstr "st") =
      .ok (ChannelCall.patchState "room" (Val.vstr "st")) ∧
    ChannelCall.setState "room" (Val.vstr "st") ≠
      ChannelCall.patchState "room" (Val.vstr "st") :=
  ⟨rfl, rfl, fun hcontra => ChannelCall.noConfusion hcontra⟩

/-- C5: the `Hop` constructor never yields a client from an invalid
credential: a missing or empty credential throws the
missing-authentication error, an unrecognized credential fails
classification, and any constructed client carries the kind its
credential classifies to. -/
theorem mkHop_rejects_invalid_credentials (arg : HopArg) :
    ((credentialOf arg = none ∨ credentialOf arg = some "") →
      mkHop arg = .error (.authRequirement missingAuthMsg)) ∧
    (∀ s, credentialOf arg = some s →
      classify s = .error .invalidCredential →
      (mkHop arg = .error (.authRequirement missingAuthMsg) ∨
        mkHop arg = .error .invalidCredential)) ∧
    (∀ c, mkHop arg = .ok c →
      ∃ s, credentialOf arg = some s ∧ classify s = .ok c.authType ∧
        c.token = s) := by
  cases arg with
  | secret s b =>
    refine ⟨?_, ?_, ?_⟩
    · intro hcred
      rcases hcred with hcred | hcred
      · exact absurd hcred (by simp [credentialOf])
      · have hs : s = "" := by
          simpa [credentialOf] using hcred
        subst hs
        rfl
    · intro t ht hcl
      have hts : s = t := by
        simpa [credentialOf] using ht
      subst hts
      by_cases he : s.isEmpty
      · left
        simp [mkHop, he]
      · right
        simp [mkHop, he, hcl]
    · intro c hc
      refine ⟨s, rfl, ?_, ?_⟩ <;>
      · by_cases he : s.isEmpty
        · simp [mkHop, he] at hc
        · simp only [mkHop, he, Bool.false_eq_true, if_false] at hc
          cases hcl : classify s with
          | ok k =>
            rw [hcl] at hc
            cases hc
            simp [hcl]
          | error e =>
            rw [hcl] at hc
            cases hc
  | options a b =>
    cases a with
    | none =>
      refine ⟨fun _ => rfl, ?_, ?_⟩
      · intro t ht
        exact absurd ht (by simp [credentialOf])
      · intro c hc
        cases hc
    | some s =>
      refine ⟨?_, ?_, ?_⟩
      · intro hcred
        rcases hcred with hcred | hcred
        · exact absurd hcred (by simp [credentialOf])
        · have hs : s = "" := by
            simpa [credentialOf] using hcred
          subst hs
          rfl
      · intro t ht hcl
        have hts : s = t := by
          simpa [credentialOf] using ht
        subst hts
        by_cases he : s.isEmpty
        · left
          simp [mkHop, he]
        · right
          simp [mkHop, he, hcl]
      · intro c hc
        refine ⟨s, rfl, ?_, ?_⟩ <;>
        · by_cases he : s.isEmpty
          · simp [mkHop, he] at hc
          · simp only [mkHop, he, Bool.false_eq_true, if_false] at hc
            cases hcl : classify s with
            | ok k =>
              rw [hcl] at hc
              cases hc
              simp [hcl]
            | error e =>
              rw [hcl] at hc
              cases hc

/-- C5 witness: the empty credential string is rejected at construction,
and a recognized project token constructs a `ptk` client. -/
theorem mkHop_rejects_invalid_credentials_witness :
    (credentialOf (HopArg.secret "" none) = none ∨
      credentialOf (HopArg.secret "" none) = some "") ∧
    mkHop (HopArg.secret "" none) =
      .error (.authRequirement missingAuthMsg) :=
  ⟨Or.inr rfl, (mkHop_rejects_invalid_credentials (HopArg.secret "" none)).1
    (Or.inr rfl)⟩


/-- C7: when a successful response's JSON envelope lacks the field the
operation expects (`images`, `project_tokens`, `project_member`), the call
fails with a decode error instead of handing an absent value to the
caller. -/
theorem missing_envelope_field_is_decode_error (auth : AuthType)
    (project : Option String) (projectId : String)
    (envelope : List (String × Val))
    (hgate : auth = AuthType.ptk ∨ truthy project = true) :
    (envelope.lookup "images" = none →
      registryImagesGetAllRun auth project envelope = .error .decodeError) ∧
    (envelope.lookup "project_tokens" = none →
      tokensGetRun auth project envelope = .error .decodeError) ∧
    (auth ≠ AuthType.ptk → envelope.lookup "project_member" = none →
      getCurrentMemberRun auth projectId envelope = .error .decodeError) := by
  have hg1 : (!truthy project && auth != AuthType.ptk) = false := by
    rcases hgate with h | h
    · subst h; simp
    · simp [h]
  have hg2 : (auth != AuthType.ptk && !truthy project) = false := by
    rcases hgate with h | h
    · subst h; simp
    · simp [h]
  refine ⟨?_, ?_, ?_⟩
  · intro hl
    simp [registryImagesGetAllRun, registryImagesGetAll, hg1, decodeField, hl]
  · intro hl
    rcases hgate with h | h
    · subst h
      cases ht : truthy project with
      | false => simp [tokensGetRun, tokensGet, ht, decodeField, hl]
      | true => simp [tokensGetRun, tokensGet, ht, decodeField, hl]
    · simp [tokensGetRun, tokensGet, h, decodeField, hl]
  · intro hne hl
    cases auth with
    | ptk => exact absurd rfl hne
    | pat => simp [getCurrentMemberRun, getCurrentMember, decodeField, hl]
    | bearer => simp [getCurrentMemberRun, getCurrentMember, decodeField, hl]

/-- C7 witness: a project-token client listing registry images against an
empty envelope gets a decode error. -/
theorem missing_envelope_field_is_decode_error_witness :
    (AuthType.ptk = AuthType.ptk ∨ truthy none = true) ∧
    ([] : List (String × Val)).lookup "images" = none ∧
    registryImagesGetAllRun AuthType.ptk none [] = .error .decodeError :=
  ⟨Or.inl rfl, rfl,
    (missing_envelope_field_is_decode_error AuthType.ptk none "project_x" []
      (Or.inl rfl)).1 rfl⟩


/-- C9: for every projects-SDK operation that branches on its optional
project id, and for every credential kind including `project_token`: a
supplied (truthy) project id selects the `:project_id` path template
instantiated with that id — overriding the token's implicit binding — and
a dispatched request uses the `@this` template exactly when the id is
omitted. -/
theorem explicit_project_id_overrides (auth : AuthType) (p : String)
    (hp : truthy (some p) = true) :
    (∀ ptkid, tokensDelete auth ptkid (some p) =
      .ok ⟨.delete, "/v1/projects/:project_id/tokens/:project_token_id",
        .empty, [("project_id", some p), ("project_token_id", some ptkid)]⟩) ∧
    tokensGet auth (some p) =
      .ok ⟨.get, "/v1/projects/:project_id/tokens", .empty,
        [("project_id", some p)]⟩ ∧
    (∀ flags, tokensCreate auth flags (some p) =
      .ok ⟨.post, "/v1/projects/:project_id/tokens",
        .json [("flags", some (.vnum flags))], [("project_id", some p)]⟩) ∧
    webhooksGet auth (some p) =
      .ok ⟨.get, "/v1/projects/:project_id/webhooks", .empty,
        [("project_id", some p)]⟩ ∧
    (∀ u es, webhooksCreate auth u es (some p) =
      .ok ⟨.post, "/v1/projects/:project_id/webhooks",
        .json [("webhook_url", some (.vstr u)), ("events", some (.vlist es))],
        [("project_id", some p)]⟩) ∧
    (∀ wid u es, webhooksEdit auth wid u es (some p) =
      .ok ⟨.patch, "/v1/projects/:project_id/webhooks/:webhook_id",
        .json [("webhook_url", u.map Val.vstr), ("events", es.map Val.vlist)],
        [("project_id", some p), ("webhook_id", some wid)]⟩) ∧
    (∀ wid, webhooksDelete auth wid (some p) =
      .ok ⟨.delete, "/v1/projects/:project_id/webhooks/:webhook_id", .empty,
        [("project_id", some p), ("webhook_id", some wid)]⟩) ∧
    (∀ wid, webhooksRegenerateSecret auth wid (some p) =
      .ok ⟨.post, "/v1/projects/:project_id/webhooks/:webhook_id/regenerate",
        .empty, [("project_id", some p), ("webhook_id", some wid)]⟩) ∧
    getAllMembers auth (some p) =
      .ok ⟨.get, "/v1/projects/:project_id/members", .empty,
        [("project_id", some p)]⟩ ∧
    secretsGetAll auth (some p) =
      .ok ⟨.get, "/v1/projects/:project_id/secrets", .empty,
        [("project_id", some p)]⟩ ∧
    (∀ sid, secretsDelete auth sid (some p) =
      .ok ⟨.delete, "/v1/projects/:project_id/secrets/:secret_id", .empty,
        [("secret_id", some sid), ("project_id", some p)]⟩) ∧
    (∀ ptkid r, tokensDelete auth ptkid none = .ok r →
      r.path = "/v1/projects/@this/tokens/:project_token_id") ∧
    (∀ r, tokensGet auth none = .ok r →
      r.path = "/v1/projects/@this/tokens") ∧
    (∀ flags r, tokensCreate auth flags none = .ok r →
      r.path = "/v1/projects/@this/tokens") ∧
    (∀ r, webhooksGet auth none = .ok r →
      r.path = "/v1/projects/@this/webhooks") ∧
    (∀ u es r, webhooksCreate auth u es none = .ok r →
      r.path = "/v1/projects/@this/webhooks") ∧
    (∀ wid u es r, webhooksEdit auth wid u es none = .ok r →
      r.path = "/v1/projects/@this/webhooks/:webhook_id") ∧
    (∀ wid r, webhooksDelete auth wid none = .ok r →
      r.path = "/v1/projects/@this/webhooks/:webhook_id") ∧
    (∀ wid r, webhooksRegenerateSecret auth wid none = .ok r →
      r.path = "/v1/projects/@this/webhooks/:webhook_id/regenerate") ∧
    (∀ r, getAllMembers auth none = .ok r →
      r.path = "/v1/projects/@this/members") ∧
    (∀ r, secretsGetAll auth none = .ok r →
      r.path = "/v1/projects/@this/secrets") ∧
    (∀ sid r, secretsDelete auth sid none = .ok r →
      r.path = "/v1/projects/@this/secrets/:secret_id") := by
  cases auth <;>
    simp_all [tokensDelete, tokensGet, tokensCreate, webhooksGet,
      webhooksCreate, webhooksEdit, webhooksDelete,
      webhooksRegenerateSecret, getAllMembers, secretsGetAll, secretsDelete,
      truthy]

/-- C9 witness: a project-token client supplying an explicit project id
still gets the `:project_id` template instantiated with that id. -/
theorem explicit_project_id_overrides_witness :
    truthy (some "project_x") = true ∧
    tokensDelete AuthType.ptk "ptkid_1" (some "project_x") =
      .ok ⟨.delete, "/v1/projects/:project_id/tokens/:project_token_id",
        .empty,
        [("project_id", some "project_x"), ("project_token_id", some "ptkid_1")]⟩ :=
  ⟨rfl, (explicit_project_id_overrides AuthType.ptk "project_x" rfl).1 "ptkid_1"⟩

end HopJs
